import Mathlib

/-!
Shallow embedding of the tuple core of the ray-tracer repository
(`src/tuple/mod.rs` and `src/tuple/ops.rs`).

The Rust code works on `f64`; the embedding models the numeric type as the
real numbers `ℝ`, with the arithmetic written exactly as the source writes
it.  The Rust `bool`-returning predicates become `Bool`-valued functions via
`decide`.  The four owned/borrowed operator variants of each Rust trait impl
share one body in the source; each operator is embedded once.
-/

noncomputable section

/-- Epsilon used for floating-point comparisons: `const EPSILON: f64 = 1e-6;`
(`src/tuple/mod.rs`, line 2). -/
def EPSILON : ℝ := 1e-6

/-- The `Tuple` struct of `src/tuple/mod.rs`: four `f64` fields `x, y, z, w`. -/
structure Tuple where
  x : ℝ
  y : ℝ
  z : ℝ
  w : ℝ

/-- `Tuple::new_point(x, y, z)`: `Self { x, y, z, w: 1.0 }`. -/
def Tuple.new_point (x y z : ℝ) : Tuple :=
  ⟨x, y, z, 1.0⟩

/-- `Tuple::new_vector(x, y, z)`: `Self { x, y, z, w: 0.0 }`. -/
def Tuple.new_vector (x y z : ℝ) : Tuple :=
  ⟨x, y, z, 0.0⟩

/-- `Tuple::is_point`: `(self.w - 1.0).abs() < EPSILON`. -/
def Tuple.is_point (t : Tuple) : Bool :=
  decide (|t.w - 1.0| < EPSILON)

/-- `Tuple::is_vector`: `self.w.abs() < EPSILON`. -/
def Tuple.is_vector (t : Tuple) : Bool :=
  decide (|t.w| < EPSILON)

/-- `Tuple::is_equal_to`: compares only the cartesian coordinates of the two
tuples, each within `EPSILON`. -/
def Tuple.is_equal_to (t other : Tuple) : Bool :=
  decide (|t.x - other.x| < EPSILON)
    && decide (|t.y - other.y| < EPSILON)
    && decide (|t.z - other.z| < EPSILON)

/-- `Tuple::magnitude`: `(x*x + y*y + z*z + w*w).sqrt()`. -/
def Tuple.magnitude (t : Tuple) : ℝ :=
  Real.sqrt (t.x * t.x + t.y * t.y + t.z * t.z + t.w * t.w)

/-- `impl Add for Tuple` (`src/tuple/ops.rs`): component-wise sum, including
`w`; the four owned/borrowed impls have the same body. -/
def Tuple.add (t rhs : Tuple) : Tuple :=
  ⟨t.x + rhs.x, t.y + rhs.y, t.z + rhs.z, t.w + rhs.w⟩

/-- `impl Sub for Tuple` (`src/tuple/ops.rs`): component-wise difference,
including `w`; the four owned/borrowed impls have the same body. -/
def Tuple.sub (t rhs : Tuple) : Tuple :=
  ⟨t.x - rhs.x, t.y - rhs.y, t.z - rhs.z, t.w - rhs.w⟩

/-- `impl Neg for Tuple` (`src/tuple/ops.rs`): negates all four components. -/
def Tuple.neg (t : Tuple) : Tuple :=
  ⟨-t.x, -t.y, -t.z, -t.w⟩

/-- `impl Mul<f64> for Tuple` (`src/tuple/ops.rs`): scales all four
components by the scalar. -/
def Tuple.mul (t : Tuple) (rhs : ℝ) : Tuple :=
  ⟨t.x * rhs, t.y * rhs, t.z * rhs, t.w * rhs⟩

/-- `impl Div<f64> for Tuple` (`src/tuple/ops.rs`): divides all four
components by the scalar, with no divide-by-zero check. -/
def Tuple.div (t : Tuple) (rhs : ℝ) : Tuple :=
  ⟨t.x / rhs, t.y / rhs, t.z / rhs, t.w / rhs⟩

/-- `Tuple::normalize`: `self / self.magnitude()`, via the `Div` impl. -/
def Tuple.normalize (t : Tuple) : Tuple :=
  t.div t.magnitude

/-- `Tuple::dot_product`: `x*x' + y*y' + z*z' + w*w'`, including `w`. -/
def Tuple.dot_product (t other : Tuple) : ℝ :=
  t.x * other.x + t.y * other.y + t.z * other.z + t.w * other.w

/-- `Tuple::cross_product`: builds the result through `Tuple::new_vector`. -/
def Tuple.cross_product (t other : Tuple) : Tuple :=
  Tuple.new_vector
    (t.y * other.z - t.z * other.y)
    (t.z * other.x - t.x * other.z)
    (t.x * other.y - t.y * other.x)

end

/-- C1: for every real `x, y, z`, `new_point x y z` is the tuple
`⟨x, y, z, 1⟩`, on which `is_point` is `true` and `is_vector` is `false`;
symmetrically `new_vector x y z` is `⟨x, y, z, 0⟩`, on which `is_vector` is
`true` and `is_point` is `false`. -/
theorem new_point_new_vector_classify (x y z : ℝ) :
    Tuple.new_point x y z = ⟨x, y, z, 1⟩ ∧
    (Tuple.new_point x y z).is_point = true ∧
    (Tuple.new_point x y z).is_vector = false ∧
    Tuple.new_vector x y z = ⟨x, y, z, 0⟩ ∧
    (Tuple.new_vector x y z).is_vector = true ∧
    (Tuple.new_vector x y z).is_point = false := by
  refine ⟨?_, ?_, ?_, ?_, ?_, ?_⟩ <;>
    norm_num [Tuple.new_point, Tuple.new_vector, Tuple.is_point,
      Tuple.is_vector, EPSILON, Tuple.mk.injEq]

/-- C2: `is_equal_to` is true exactly when the three spatial coordinates
agree within `EPSILON = 1e-6`; the `w` components play no role; in
particular a point and a vector with the same spatial coordinates compare
equal. -/
theorem is_equal_to_spatial_only :
    (∀ a b : Tuple, a.is_equal_to b = true ↔
      (|a.x - b.x| < EPSILON ∧ |a.y - b.y| < EPSILON ∧ |a.z - b.z| < EPSILON)) ∧
    (∀ a b : Tuple, ∀ w₁ w₂ : ℝ,
      Tuple.is_equal_to ⟨a.x, a.y, a.z, w₁⟩ ⟨b.x, b.y, b.z, w₂⟩ =
        a.is_equal_to b) ∧
    (∀ x y z : ℝ,
      (Tuple.new_point x y z).is_equal_to (Tuple.new_vector x y z) = true) := by
  refine ⟨fun a b => ?_, fun a b w₁ w₂ => ?_, fun x y z => ?_⟩ <;>
    (simp [Tuple.is_equal_to, Tuple.new_point, Tuple.new_vector, EPSILON,
      and_assoc]; try norm_num)

/-- C4: addition is the component-wise sum of all four components including
`w`; point + vector gives `w = 1`, vector + vector gives `w = 0`, and
point + point gives a tuple with `w = 2`, returned as-is. -/
theorem add_componentwise :
    (∀ a b : Tuple, a.add b = ⟨a.x + b.x, a.y + b.y, a.z + b.z, a.w + b.w⟩) ∧
    (∀ x y z x' y' z' : ℝ,
      ((Tuple.new_point x y z).add (Tuple.new_vector x' y' z')).w = 1) ∧
    (∀ x y z x' y' z' : ℝ,
      ((Tuple.new_vector x y z).add (Tuple.new_vector x' y' z')).w = 0) ∧
    (∀ x y z x' y' z' : ℝ,
      ((Tuple.new_point x y z).add (Tuple.new_point x' y' z')).w = 2) := by
  refine ⟨fun a b => rfl, fun _ _ _ _ _ _ => ?_, fun _ _ _ _ _ _ => ?_,
    fun _ _ _ _ _ _ => ?_⟩ <;>
    norm_num [Tuple.add, Tuple.new_point, Tuple.new_vector]

/-- C5: subtraction is the component-wise difference of all four components
including `w`; point − point gives `w = 0`, point − vector gives `w = 1`,
vector − vector gives `w = 0`, and vector − point gives a tuple with
`w = -1`, returned as-is. -/
theorem sub_componentwise :
    (∀ a b : Tuple, a.sub b = ⟨a.x - b.x, a.y - b.y, a.z - b.z, a.w - b.w⟩) ∧
    (∀ x y z x' y' z' : ℝ,
      ((Tuple.new_point x y z).sub (Tuple.new_point x' y' z')).w = 0) ∧
    (∀ x y z x' y' z' : ℝ,
      ((Tuple.new_point x y z).sub (Tuple.new_vector x' y' z')).w = 1) ∧
    (∀ x y z x' y' z' : ℝ,
      ((Tuple.new_vector x y z).sub (Tuple.new_vector x' y' z')).w = 0) ∧
    (∀ x y z x' y' z' : ℝ,
      ((Tuple.new_vector x y z).sub (Tuple.new_point x' y' z')).w = -1) := by
  refine ⟨fun a b => rfl, fun _ _ _ _ _ _ => ?_, fun _ _ _ _ _ _ => ?_,
    fun _ _ _ _ _ _ => ?_, fun _ _ _ _ _ _ => ?_⟩ <;>
    norm_num [Tuple.sub, Tuple.new_point, Tuple.new_vector]

/-- C6: negation negates all four components including `w`, and is an
involution: `-(-t) = t` component-wise, including the original `w`. -/
theorem neg_involution :
    (∀ t : Tuple, t.neg = ⟨-t.x, -t.y, -t.z, -t.w⟩) ∧
    (∀ t : Tuple, t.neg.neg = t) := by
  refine ⟨fun t => rfl, fun t => ?_⟩
  cases t
  simp [Tuple.neg]

/-- C7: scalar division divides all four components including `w` by the
scalar, with no divide-by-zero check: at `s = 0` the operation still
returns a tuple (it does not fail), whose components are the numeric
domain's division-by-zero values. -/
theorem div_componentwise :
    (∀ a : Tuple, ∀ s : ℝ, a.div s = ⟨a.x / s, a.y / s, a.z / s, a.w / s⟩) ∧
    (∀ a : Tuple, a.div 0 = ⟨a.x / 0, a.y / 0, a.z / 0, a.w / 0⟩) :=
  ⟨fun _ _ => rfl, fun _ => rfl⟩

/-- C8: the cross product is built through `new_vector`, so its `w` is
exactly `0`, its spatial components are
`(a.y*b.z - a.z*b.y, a.z*b.x - a.x*b.z, a.x*b.y - a.y*b.x)`, and it is
anti-commutative: `cross a b = -(cross b a)`. -/
theorem cross_product_anticomm :
    (∀ a b : Tuple, a.cross_product b =
      Tuple.new_vector (a.y * b.z - a.z * b.y) (a.z * b.x - a.x * b.z)
        (a.x * b.y - a.y * b.x)) ∧
    (∀ a b : Tuple, (a.cross_product b).w = 0) ∧
    (∀ a b : Tuple, a.cross_product b = (b.cross_product a).neg) := by
  refine ⟨fun a b => rfl, fun a b => ?_, fun a b => ?_⟩ <;>
    (norm_num [Tuple.cross_product, Tuple.new_vector, Tuple.neg,
      Tuple.mk.injEq]; try (ring_nf; norm_num))

/-- C9: `is_equal_to` is reflexive and symmetric: `a.is_equal_to a` is true
for every tuple `a`, and `a.is_equal_to b = b.is_equal_to a` for all
tuples `a`, `b`. -/
theorem is_equal_to_refl_symm :
    (∀ a : Tuple, a.is_equal_to a = true) ∧
    (∀ a b : Tuple, a.is_equal_to b = b.is_equal_to a) := by
  constructor
  · intro a
    norm_num [Tuple.is_equal_to, EPSILON]
  · intro a b
    simp only [Tuple.is_equal_to, abs_sub_comm]

/-- C10: `is_point` and `is_vector` are mutually exclusive for every tuple,
whatever its `w`: no real `w` satisfies both `|w - 1| < 1e-6` and
`|w| < 1e-6`, so the two predicates are never simultaneously true. -/
theorem is_point_is_vector_exclusive (t : Tuple) :
    (t.is_point && t.is_vector) = false := by
  have h : ¬ (|t.w - 1.0| < EPSILON ∧ |t.w| < EPSILON) := by
    rintro ⟨h1, h2⟩
    rw [abs_lt] at h1 h2
    norm_num [EPSILON] at h1 h2
    linarith
  simp only [Tuple.is_point, Tuple.is_vector, Bool.and_eq_false_iff,
    decide_eq_false_iff_not]
  exact not_and_or.mp h

/-- C3 counterexample: the zero tuple `new_vector 0 0 0` satisfies
`is_vector`, yet the magnitude of its normalization is not within `1e-6`
of `1` (dividing by its zero magnitude does not produce a unit tuple). -/
theorem normalize_zero_vector_not_unit :
    (Tuple.new_vector 0 0 0).is_vector = true ∧
    ¬ (|(Tuple.new_vector 0 0 0).normalize.magnitude - 1.0| < EPSILON) := by
  constructor
  · norm_num [Tuple.new_vector, Tuple.is_vector, EPSILON]
  · norm_num [Tuple.new_vector, Tuple.normalize, Tuple.div, Tuple.magnitude,
      EPSILON, Real.sqrt_zero]

/-- C3 (amended): for every tuple `a` whose magnitude is nonzero — in
particular every nonzero vector — `normalize a` is `a` divided
component-wise (including `w`) by `magnitude a`, and the magnitude of
`normalize a` is within `1e-6` of `1`. -/
theorem normalize_unit_magnitude (a : Tuple) (h : a.magnitude ≠ 0) :
    a.normalize = a.div a.magnitude ∧
    |a.normalize.magnitude - 1.0| < EPSILON := by
  refine ⟨rfl, ?_⟩
  have hs : 0 ≤ a.x * a.x + a.y * a.y + a.z * a.z + a.w * a.w := by
    linarith [mul_self_nonneg a.x, mul_self_nonneg a.y, mul_self_nonneg a.z,
      mul_self_nonneg a.w]
  have hm : a.magnitude * a.magnitude
      = a.x * a.x + a.y * a.y + a.z * a.z + a.w * a.w :=
    Real.mul_self_sqrt hs
  have key : a.x / a.magnitude * (a.x / a.magnitude)
      + a.y / a.magnitude * (a.y / a.magnitude)
      + a.z / a.magnitude * (a.z / a.magnitude)
      + a.w / a.magnitude * (a.w / a.magnitude) = 1 := by
    field_simp
    linarith [hm]
  have h1 : a.normalize.magnitude = 1 := by
    have hdef : a.normalize.magnitude
        = Real.sqrt (a.x / a.magnitude * (a.x / a.magnitude)
          + a.y / a.magnitude * (a.y / a.magnitude)
          + a.z / a.magnitude * (a.z / a.magnitude)
          + a.w / a.magnitude * (a.w / a.magnitude)) := rfl
    rw [hdef, key, Real.sqrt_one]
  rw [h1]
  norm_num [EPSILON]

/-- Witness for the amended C3, at the concrete unit vector `(1, 0, 0)`. -/
theorem normalize_unit_magnitude_witness :
    (Tuple.new_vector 1 0 0).magnitude ≠ 0 ∧
    ((Tuple.new_vector 1 0 0).normalize
        = (Tuple.new_vector 1 0 0).div (Tuple.new_vector 1 0 0).magnitude ∧
      |(Tuple.new_vector 1 0 0).normalize.magnitude - 1.0| < EPSILON) := by
  have h : (Tuple.new_vector 1 0 0).magnitude ≠ 0 := by
    norm_num [Tuple.new_vector, Tuple.magnitude, Real.sqrt_one]
  exact ⟨h, normalize_unit_magnitude _ h⟩
